import Mathlib

/-!
Shallow embedding of the engagement and membership logic of the civic-issue
reporting backend: the complaint vote toggle and status-history recorder
(backend/routes/complaints.js, backend/models/Complaint.js), the comment
edit, soft-delete and like routes together with the comment pre-save
edit-history hook (routes/comments.js, models/Comment.js), and the community
membership methods with the leave route guard (models/Community.js,
routes/communities.js).

Mongoose conventions modelled here: a document loaded from the store is the
state before the handler runs; assigning a field marks it modified exactly
when the new value differs from the loaded value, so each pre-save hook is a
function of the loaded document and the mutated document.  Timestamps are
natural numbers (milliseconds); object ids are natural numbers.
-/

namespace Civic

abbrev UserId := Nat

inductive VoteType
  | upvote
  | downvote
  deriving DecidableEq

inductive Status
  | submitted
  | inProgress
  | resolved
  | rejected
  deriving DecidableEq

structure VoteEntry where
  user : UserId
  votedAt : Nat
  deriving DecidableEq

structure StatusEntry where
  status : Status
  changedBy : Option UserId
  changedAt : Nat
  comment : Option String
  deriving DecidableEq

structure Resolution where
  description : Option String
  resolvedBy : UserId
  resolvedAt : Nat
  deriving DecidableEq

/-- The complaint document fields touched by the vote and status routes
(models/Complaint.js). -/
structure Complaint where
  title : String
  description : String
  status : Status
  assignedTo : Option UserId
  upvotes : List VoteEntry
  downvotes : List VoteEntry
  comments : List Nat
  statusHistory : List StatusEntry
  resolutionDetails : Option Resolution
  deriving DecidableEq

/-- complaintSchema.pre save: if the status field was modified on an existing
document, push an entry with only the new status and a timestamp. -/
def complaintPreSave (orig c : Complaint) (now : Nat) : Complaint :=
  if c.status ≠ orig.status then
    { c with statusHistory := c.statusHistory ++
        [{ status := c.status, changedBy := none, changedAt := now, comment := none }] }
  else c

def hasUpvoted (c : Complaint) (u : UserId) : Bool :=
  c.upvotes.any (fun v => v.user == u)

def hasDownvoted (c : Complaint) (u : UserId) : Bool :=
  c.downvotes.any (fun v => v.user == u)

/-- complaintSchema.methods.hasUserVoted. -/
def hasUserVoted (c : Complaint) (u : UserId) : Option VoteType :=
  if hasUpvoted c u then some VoteType.upvote
  else if hasDownvoted c u then some VoteType.downvote
  else none

/-- POST /api/complaints/:id/vote: remove all entries of the user from both vote
arrays, then add the requested vote unless the user already held it; the
following save runs the status-history pre-save hook (a no-op here). -/
def toggleVoteRoute (c : Complaint) (u : UserId) (vt : VoteType) (now : Nat) : Complaint :=
  let hadUp := hasUpvoted c u
  let hadDown := hasDownvoted c u
  let ups := c.upvotes.filter (fun v => !(v.user == u))
  let downs := c.downvotes.filter (fun v => !(v.user == u))
  let c1 : Complaint := { c with upvotes := ups, downvotes := downs }
  let c2 : Complaint :=
    match vt with
    | VoteType.upvote =>
        if !hadUp then { c1 with upvotes := ups ++ [{ user := u, votedAt := now }] } else c1
    | VoteType.downvote =>
        if !hadDown then { c1 with downvotes := downs ++ [{ user := u, votedAt := now }] } else c1
  complaintPreSave c c2 now

/-- Validator on the optional status-change comment body field. -/
def commentLenOk : Option String → Bool
  | none => true
  | some s => s.length ≤ 500

/-- PUT /api/complaints/:id/status: after validation and the admin-or-assignee
check, set the status, push a history entry carrying the actor and comment,
populate resolution details when resolving, then save (which runs the
pre-save hook).  Returns the HTTP code with the resulting stored state. -/
def updateStatusRoute (c : Complaint) (actor : UserId) (isAdmin : Bool)
    (newStatus : Status) (comment : Option String) (now : Nat) : Nat × Complaint :=
  if commentLenOk comment = false then (400, c)
  else if isAdmin = false ∧ c.assignedTo ≠ some actor then (403, c)
  else
    let c1 : Complaint := { c with
      status := newStatus,
      statusHistory := c.statusHistory ++
        [{ status := newStatus, changedBy := some actor, changedAt := now, comment := comment }] }
    let c2 : Complaint :=
      if newStatus = Status.resolved then
        { c1 with
          resolutionDetails := some { description := comment, resolvedBy := actor, resolvedAt := now } }
      else c1
    (200, complaintPreSave c c2 now)

structure LikeEntry where
  user : UserId
  likedAt : Nat
  deriving DecidableEq

structure EditEntry where
  content : String
  editedAt : Nat
  deriving DecidableEq

/-- The comment document fields touched by the comment routes
(models/Comment.js). -/
structure Comment where
  content : String
  author : UserId
  likes : List LikeEntry
  isEdited : Bool
  editHistory : List EditEntry
  isDeleted : Bool
  deletedAt : Option Nat
  createdAt : Nat
  deriving DecidableEq

/-- commentSchema.pre save: if the content field was modified on an existing
document, push the current (already mutated) content into the edit history
and set the edited flag. -/
def commentPreSave (orig c : Comment) (now : Nat) : Comment :=
  if c.content ≠ orig.content then
    { c with
      editHistory := c.editHistory ++ [{ content := c.content, editedAt := now }],
      isEdited := true }
  else c

/-- Placeholder content written by the comment soft delete. -/
def tombstone : String := "[This comment has been deleted]"

/-- PUT /api/comments/:id: validation (1 to 500 chars), author check,
24-hour edit window check, then mutate content, set the edited flag, push the
pre-edit content, and save (running the pre-save hook). -/
def updateCommentRoute (c : Comment) (requester : UserId) (newContent : String)
    (now : Nat) : Nat × Comment :=
  if newContent.length < 1 ∨ 500 < newContent.length then (400, c)
  else if c.author ≠ requester then (403, c)
  else if 86400000 < now - c.createdAt then (403, c)
  else
    let c1 : Comment := { c with
      content := newContent,
      isEdited := true,
      editHistory := c.editHistory ++ [{ content := c.content, editedAt := now }] }
    (200, commentPreSave c c1 now)

/-- DELETE /api/comments/:id: author-or-admin check, then set the deleted
flag and timestamp, overwrite the content with the placeholder, and save
(running the pre-save hook). -/
def deleteCommentRoute (c : Comment) (requester : UserId) (isAdmin : Bool)
    (now : Nat) : Nat × Comment :=
  if c.author ≠ requester ∧ isAdmin = false then (403, c)
  else
    let c1 : Comment := { c with
      isDeleted := true, deletedAt := some now, content := tombstone }
    (200, commentPreSave c c1 now)

/-- commentSchema.methods.hasUserLiked. -/
def hasUserLiked (c : Comment) (u : UserId) : Bool :=
  c.likes.any (fun l => l.user == u)

/-- POST /api/comments/:id/like: remove all like entries of the user if present,
otherwise push one, then save. -/
def toggleLikeRoute (c : Comment) (u : UserId) (now : Nat) : Nat × Comment :=
  let hadLiked := hasUserLiked c u
  let c1 : Comment :=
    if hadLiked then { c with likes := c.likes.filter (fun l => !(l.user == u)) }
    else { c with likes := c.likes ++ [{ user := u, likedAt := now }] }
  (200, commentPreSave c c1 now)

inductive Role
  | member
  | moderator
  | admin
  deriving DecidableEq

structure MemberEntry where
  user : UserId
  joinedAt : Nat
  role : Role
  deriving DecidableEq

/-- The community document fields touched by the membership methods
(models/Community.js). -/
structure Community where
  createdBy : UserId
  moderators : List UserId
  members : List MemberEntry
  deriving DecidableEq

/-- communitySchema.methods.isMember. -/
def isMember (c : Community) (u : UserId) : Bool :=
  c.members.any (fun m => m.user == u)

/-- communitySchema.methods.isModerator. -/
def isModerator (c : Community) (u : UserId) : Bool :=
  c.moderators.any (fun m => m == u) || c.createdBy == u

/-- communitySchema.methods.addMember: no-op when already a member, otherwise
push a record with role member and the current timestamp. -/
def addMember (c : Community) (u : UserId) (now : Nat) : Community :=
  if isMember c u then c
  else { c with members := c.members ++ [{ user := u, joinedAt := now, role := Role.member }] }

/-- communitySchema.methods.removeMember: filter out every record whose user
matches. -/
def removeMember (c : Community) (u : UserId) : Community :=
  { c with members := c.members.filter (fun m => !(m.user == u)) }

/-- POST /api/communities/:id/leave: membership check, creator guard, then
removeMember and save. -/
def leaveRoute (c : Community) (u : UserId) : Nat × Community :=
  if isMember c u = false then (400, c)
  else if c.createdBy = u then (400, c)
  else (200, removeMember c u)

/-- Number of member records held by a given user. -/
def countMember (c : Community) (u : UserId) : Nat :=
  (c.members.filter (fun m => m.user == u)).length

/-- Number of like entries held by a given user. -/
def countLikes (c : Comment) (u : UserId) : Nat :=
  (c.likes.filter (fun l => l.user == u)).length

/-- A sequence of vote-route calls by one user, each call a vote type with
its timestamp. -/
def runVotes (c : Complaint) (u : UserId) (calls : List (VoteType × Nat)) : Complaint :=
  calls.foldl (fun s p => toggleVoteRoute s u p.1 p.2) c

/-- A sequence of like-route calls by one user, given the timestamp of each
call. -/
def runLikes (c : Comment) (u : UserId) : List Nat → Comment
  | [] => c
  | t :: ts => runLikes (toggleLikeRoute c u t).2 u ts

/-! ### List helper lemmas -/

theorem any_filter_not_self {α : Type} (l : List α) (p : α → Bool) :
    (l.filter (fun x => !(p x))).any p = false := by
  induction l with
  | nil => rfl
  | cons a t ih =>
    by_cases hp : p a = true <;> simp [List.filter_cons, hp, ih]

theorem any_filter_not_other {α : Type} (l : List α) (p q : α → Bool)
    (h : ∀ x, q x = true → p x = false) :
    (l.filter (fun x => !(p x))).any q = l.any q := by
  induction l with
  | nil => rfl
  | cons a t ih =>
    by_cases hp : p a = true
    · have hq : q a = false := by
        by_cases hqa : q a = true
        · exact absurd (h a hqa) (by simp [hp])
        · simpa using hqa
      simp [List.filter_cons, hp, hq, ih]
    · simp [List.filter_cons, hp, ih]

theorem filter_not_eq_self_of_any_false {α : Type} (l : List α) (p : α → Bool)
    (h : l.any p = false) : l.filter (fun x => !(p x)) = l := by
  induction l with
  | nil => rfl
  | cons a t ih =>
    simp only [List.any_cons, Bool.or_eq_false_iff] at h
    simp [List.filter_cons, h.1, ih h.2]

theorem length_filter_not_add {α : Type} (l : List α) (p : α → Bool) :
    (l.filter (fun x => !(p x))).length + (l.filter p).length = l.length := by
  induction l with
  | nil => rfl
  | cons a t ih =>
    by_cases hp : p a = true <;> simp [List.filter_cons, hp] <;> omega

/-! ### Pre-save hook lemmas -/

theorem complaintPreSave_status_eq (orig c : Complaint) (now : Nat)
    (h : c.status = orig.status) : complaintPreSave orig c now = c := by
  simp [complaintPreSave, h]

theorem commentPreSave_content_eq (orig c : Comment) (now : Nat)
    (h : c.content = orig.content) : commentPreSave orig c now = c := by
  simp [commentPreSave, h]

/-! ### Vote toggle case equations -/

theorem toggleVote_up_on (c : Complaint) (u : UserId) (now : Nat)
    (h1 : hasUpvoted c u = false) :
    toggleVoteRoute c u VoteType.upvote now =
      { c with
        upvotes := c.upvotes.filter (fun v => !(v.user == u)) ++ [{ user := u, votedAt := now }],
        downvotes := c.downvotes.filter (fun v => !(v.user == u)) } := by
  simp only [toggleVoteRoute, h1, Bool.not_false, if_true]
  exact complaintPreSave_status_eq _ _ _ rfl

theorem toggleVote_up_off (c : Complaint) (u : UserId) (now : Nat)
    (h1 : hasUpvoted c u = true) :
    toggleVoteRoute c u VoteType.upvote now =
      { c with
        upvotes := c.upvotes.filter (fun v => !(v.user == u)),
        downvotes := c.downvotes.filter (fun v => !(v.user == u)) } := by
  simp only [toggleVoteRoute, h1, Bool.not_true, if_false]
  exact complaintPreSave_status_eq _ _ _ rfl

theorem toggleVote_down_on (c : Complaint) (u : UserId) (now : Nat)
    (h2 : hasDownvoted c u = false) :
    toggleVoteRoute c u VoteType.downvote now =
      { c with
        upvotes := c.upvotes.filter (fun v => !(v.user == u)),
        downvotes :=
          c.downvotes.filter (fun v => !(v.user == u)) ++ [{ user := u, votedAt := now }] } := by
  simp only [toggleVoteRoute, h2, Bool.not_false, if_true]
  exact complaintPreSave_status_eq _ _ _ rfl

theorem toggleVote_down_off (c : Complaint) (u : UserId) (now : Nat)
    (h2 : hasDownvoted c u = true) :
    toggleVoteRoute c u VoteType.downvote now =
      { c with
        upvotes := c.upvotes.filter (fun v => !(v.user == u)),
        downvotes := c.downvotes.filter (fun v => !(v.user == u)) } := by
  simp only [toggleVoteRoute, h2, Bool.not_true, if_false]
  exact complaintPreSave_status_eq _ _ _ rfl

theorem toggleVoteRoute_exclusive (c : Complaint) (u : UserId) (vt : VoteType) (now : Nat) :
    (hasUpvoted (toggleVoteRoute c u vt now) u &&
      hasDownvoted (toggleVoteRoute c u vt now) u) = false := by
  cases vt
  case upvote =>
    cases h1 : hasUpvoted c u
    · rw [toggleVote_up_on c u now h1]
      simp only [hasDownvoted]
      simp [any_filter_not_self]
    · rw [toggleVote_up_off c u now h1]
      simp only [hasUpvoted]
      simp [any_filter_not_self]
  case downvote =>
    cases h2 : hasDownvoted c u
    · rw [toggleVote_down_on c u now h2]
      simp only [hasUpvoted]
      simp [any_filter_not_self]
    · rw [toggleVote_down_off c u now h2]
      simp only [hasDownvoted]
      simp [any_filter_not_self]

/-- Claim C1: vote exclusivity.  For every complaint, user and sequence of
vote-route calls by that user, after each call (the last of any prefix of
the sequence) the user appears in at most one of the upvote and downvote
sets. -/
theorem vote_exclusivity (c : Complaint) (u : UserId) (calls : List (VoteType × Nat))
    (vt : VoteType) (now : Nat) :
    (hasUpvoted (runVotes c u (calls ++ [(vt, now)])) u &&
      hasDownvoted (runVotes c u (calls ++ [(vt, now)])) u) = false := by
  have h : runVotes c u (calls ++ [(vt, now)]) =
      toggleVoteRoute (runVotes c u calls) u vt now := by
    simp [runVotes, List.foldl_append]
  rw [h]
  exact toggleVoteRoute_exclusive (runVotes c u calls) u vt now

/-- Claim C10: vote frame property.  A vote-route call by user u leaves any
other user membership in the upvote and downvote sets unchanged, and leaves
the title, description, status, status history and comment list unchanged. -/
theorem vote_frame (c : Complaint) (u w : UserId) (vt : VoteType) (now : Nat)
    (h : w ≠ u) :
    hasUpvoted (toggleVoteRoute c u vt now) w = hasUpvoted c w ∧
    hasDownvoted (toggleVoteRoute c u vt now) w = hasDownvoted c w ∧
    (toggleVoteRoute c u vt now).title = c.title ∧
    (toggleVoteRoute c u vt now).description = c.description ∧
    (toggleVoteRoute c u vt now).status = c.status ∧
    (toggleVoteRoute c u vt now).statusHistory = c.statusHistory ∧
    (toggleVoteRoute c u vt now).comments = c.comments := by
  have hwu : (u == w) = false := by
    simp only [beq_eq_false_iff_ne]
    exact fun e => h e.symm
  have key : ∀ l : List VoteEntry,
      ((l.filter (fun v => !(v.user == u))).any (fun v => v.user == w)) =
        l.any (fun v => v.user == w) := by
    intro l
    apply any_filter_not_other
    intro x hx
    have hxw : x.user = w := by simpa using hx
    simp [hxw, h]
  cases vt
  case upvote =>
    cases h1 : hasUpvoted c u
    · rw [toggleVote_up_on c u now h1]
      refine ⟨?_, ?_, rfl, rfl, rfl, rfl, rfl⟩
      · simp only [hasUpvoted, List.any_append]
        simp [key, hwu]
      · exact key _
    · rw [toggleVote_up_off c u now h1]
      exact ⟨key _, key _, rfl, rfl, rfl, rfl, rfl⟩
  case downvote =>
    cases h2 : hasDownvoted c u
    · rw [toggleVote_down_on c u now h2]
      refine ⟨key _, ?_, rfl, rfl, rfl, rfl, rfl⟩
      simp only [hasDownvoted, List.any_append]
      simp [key, hwu]
    · rw [toggleVote_down_off c u now h2]
      exact ⟨key _, key _, rfl, rfl, rfl, rfl, rfl⟩

/-- Sample complaint for concrete checks: user 5 has upvoted, user 9 has
downvoted. -/
def sampleComplaint : Complaint :=
  { title := "pothole", description := "large pothole on main road",
    status := Status.submitted, assignedTo := none,
    upvotes := [{ user := 5, votedAt := 3 }],
    downvotes := [{ user := 9, votedAt := 4 }],
    comments := [], statusHistory := [], resolutionDetails := none }

/-- Witness for the C10 frame theorem: user 5 toggles an upvote, user 9 is
unaffected. -/
theorem vote_frame_witness :
    hasUpvoted (toggleVoteRoute sampleComplaint 5 VoteType.upvote 9) 9 =
      hasUpvoted sampleComplaint 9 ∧
    hasDownvoted (toggleVoteRoute sampleComplaint 5 VoteType.upvote 9) 9 =
      hasDownvoted sampleComplaint 9 ∧
    (toggleVoteRoute sampleComplaint 5 VoteType.upvote 9).title = sampleComplaint.title ∧
    (toggleVoteRoute sampleComplaint 5 VoteType.upvote 9).description =
      sampleComplaint.description ∧
    (toggleVoteRoute sampleComplaint 5 VoteType.upvote 9).status = sampleComplaint.status ∧
    (toggleVoteRoute sampleComplaint 5 VoteType.upvote 9).statusHistory =
      sampleComplaint.statusHistory ∧
    (toggleVoteRoute sampleComplaint 5 VoteType.upvote 9).comments =
      sampleComplaint.comments :=
  vote_frame sampleComplaint 5 9 VoteType.upvote 9 (by decide)

/-- Counterexample to claim C5 as stated: user 5 has already upvoted the
sample complaint, and two successive upvote toggles leave the vote
state at upvote, not none. -/
theorem vote_toggle_off_cx :
    hasUserVoted
      (toggleVoteRoute (toggleVoteRoute sampleComplaint 5 VoteType.upvote 1)
        5 VoteType.upvote 2) 5 ≠ none := by
  decide

/-- Claim C5 (amended): for a user whose current vote state on the complaint
is none, two successive upvote toggles return the complaint to exactly its
original state, so the vote state is none and both counts are restored. -/
theorem vote_toggle_off (c : Complaint) (u : UserId) (t1 t2 : Nat)
    (h : hasUserVoted c u = none) :
    toggleVoteRoute (toggleVoteRoute c u VoteType.upvote t1) u VoteType.upvote t2 = c ∧
    hasUserVoted
      (toggleVoteRoute (toggleVoteRoute c u VoteType.upvote t1) u VoteType.upvote t2) u =
      none := by
  have h1 : hasUpvoted c u = false := by
    cases hu : hasUpvoted c u
    · rfl
    · simp [hasUserVoted, hu] at h
  have h2 : hasDownvoted c u = false := by
    cases hd : hasDownvoted c u
    · rfl
    · simp [hasUserVoted, h1, hd] at h
  have e1 : c.upvotes.filter (fun v => !(v.user == u)) = c.upvotes :=
    filter_not_eq_self_of_any_false _ _ h1
  have e2 : c.downvotes.filter (fun v => !(v.user == u)) = c.downvotes :=
    filter_not_eq_self_of_any_false _ _ h2
  have step :
      toggleVoteRoute (toggleVoteRoute c u VoteType.upvote t1) u VoteType.upvote t2 = c := by
    rw [toggleVote_up_on c u t1 h1, e1, e2]
    rw [toggleVote_up_off _ u t2 (by simp [hasUpvoted])]
    simp only [List.filter_append]
    simp [e1, e2]
  exact ⟨step, by rw [step]; exact h⟩

/-- Witness for the amended C5 theorem: user 7 has no vote on the sample
complaint, and two upvote toggles restore it exactly. -/
theorem vote_toggle_off_witness :
    toggleVoteRoute (toggleVoteRoute sampleComplaint 7 VoteType.upvote 1)
      7 VoteType.upvote 2 = sampleComplaint ∧
    hasUserVoted
      (toggleVoteRoute (toggleVoteRoute sampleComplaint 7 VoteType.upvote 1)
        7 VoteType.upvote 2) 7 = none :=
  vote_toggle_off sampleComplaint 7 1 2 (by decide)

/-! ### Status route case equations -/

theorem updateStatusRoute_eq_of_ne (c : Complaint) (actor : UserId)
    (newStatus : Status) (comment : Option String) (now : Nat)
    (hc : commentLenOk comment = true) (hs : newStatus ≠ c.status)
    (hr : newStatus ≠ Status.resolved) :
    updateStatusRoute c actor true newStatus comment now =
      (200, { c with
              status := newStatus,
              statusHistory := c.statusHistory ++
                [{ status := newStatus, changedBy := some actor, changedAt := now,
                   comment := comment },
                 { status := newStatus, changedBy := none, changedAt := now,
                   comment := none }] }) := by
  simp [updateStatusRoute, complaintPreSave, hc, hs, hr]

theorem updateStatusRoute_eq_resolved (c : Complaint) (actor : UserId)
    (comment : Option String) (now : Nat)
    (hc : commentLenOk comment = true) (hs : Status.resolved ≠ c.status) :
    updateStatusRoute c actor true Status.resolved comment now =
      (200, { c with
              status := Status.resolved,
              statusHistory := c.statusHistory ++
                [{ status := Status.resolved, changedBy := some actor, changedAt := now,
                   comment := comment },
                 { status := Status.resolved, changedBy := none, changedAt := now,
                   comment := none }],
              resolutionDetails := some { description := comment, resolvedBy := actor,
                                          resolvedAt := now } }) := by
  simp [updateStatusRoute, complaintPreSave, hc, hs]

/-- Counterexample to claim C2 as stated: on the sample complaint (status
Submitted, empty history) the transitions Submitted to In Progress to
Resolved leave a status history of length 4, not 2, because both the route
handler and the pre-save hook append an entry on each change. -/
theorem status_history_cx :
    ((updateStatusRoute (updateStatusRoute sampleComplaint 1 true Status.inProgress none 10).2
        1 true Status.resolved none 20).2).statusHistory.length ≠ 2 := by
  decide

/-- Claim C2 (amended): every status change to a different status on an
existing complaint appends exactly two entries to the status history, first
the route entry carrying the new status, the acting user and the comment,
then the pre-save hook entry carrying only the new status and timestamp; so
Submitted to In Progress to Resolved yields four appended entries whose
statuses follow the transition sequence doubled, with the acting user on the
route entries only, and the resolution record populated on reaching
Resolved. -/
theorem status_history_two_transitions (c : Complaint) (actor : UserId)
    (com1 com2 : Option String) (t1 t2 : Nat)
    (h0 : c.status ≠ Status.inProgress)
    (hc1 : commentLenOk com1 = true) (hc2 : commentLenOk com2 = true) :
    ((updateStatusRoute (updateStatusRoute c actor true Status.inProgress com1 t1).2
        actor true Status.resolved com2 t2).2).statusHistory =
      c.statusHistory ++
        [{ status := Status.inProgress, changedBy := some actor, changedAt := t1,
           comment := com1 },
         { status := Status.inProgress, changedBy := none, changedAt := t1, comment := none },
         { status := Status.resolved, changedBy := some actor, changedAt := t2,
           comment := com2 },
         { status := Status.resolved, changedBy := none, changedAt := t2, comment := none }] ∧
    ((updateStatusRoute (updateStatusRoute c actor true Status.inProgress com1 t1).2
        actor true Status.resolved com2 t2).2).resolutionDetails =
      some { description := com2, resolvedBy := actor, resolvedAt := t2 } := by
  rw [updateStatusRoute_eq_of_ne c actor Status.inProgress com1 t1 hc1
    (fun e => h0 e.symm) (by decide)]
  rw [updateStatusRoute_eq_resolved _ actor com2 t2 hc2 (fun h => Status.noConfusion h)]
  simp

/-- Witness for the amended C2 theorem on the sample complaint. -/
theorem status_history_two_transitions_witness :
    ((updateStatusRoute (updateStatusRoute sampleComplaint 2 true Status.inProgress
        (some "working") 10).2 2 true Status.resolved (some "fixed") 20).2).statusHistory =
      sampleComplaint.statusHistory ++
        [{ status := Status.inProgress, changedBy := some 2, changedAt := 10,
           comment := some "working" },
         { status := Status.inProgress, changedBy := none, changedAt := 10, comment := none },
         { status := Status.resolved, changedBy := some 2, changedAt := 20,
           comment := some "fixed" },
         { status := Status.resolved, changedBy := none, changedAt := 20, comment := none }] ∧
    ((updateStatusRoute (updateStatusRoute sampleComplaint 2 true Status.inProgress
        (some "working") 10).2 2 true Status.resolved (some "fixed") 20).2).resolutionDetails =
      some { description := some "fixed", resolvedBy := 2, resolvedAt := 20 } :=
  status_history_two_transitions sampleComplaint 2 (some "working") (some "fixed") 10 20
    (by decide) (by decide) (by decide)

/-! ### Comment route claims -/

/-- Sample comment for concrete checks: content A by author 7, liked by
user 3, created at time 0. -/
def sampleComment : Comment :=
  { content := "A", author := 7, likes := [{ user := 3, likedAt := 2 }],
    isEdited := false, editHistory := [], isDeleted := false, deletedAt := none,
    createdAt := 0 }

/-- Claim C3: refuted by the code.  Editing the sample comment from content A
to B (by the author, within the window) leaves the current content B and the
edited flag set, but the edit history receives two appended entries, the
pre-edit A from the route handler followed by the post-edit B from the
pre-save hook, so the most recent edit-history entry records B, not the
pre-edit value A. -/
theorem edit_history_last_entry_is_new_content :
    (updateCommentRoute sampleComment 7 "B" 1000).1 = 200 ∧
    (updateCommentRoute sampleComment 7 "B" 1000).2.content = "B" ∧
    (updateCommentRoute sampleComment 7 "B" 1000).2.isEdited = true ∧
    (updateCommentRoute sampleComment 7 "B" 1000).2.editHistory.map (fun e => e.content) =
      ["A", "B"] := by
  decide

/-- Counterexample to claim C4 as stated: soft-deleting the sample comment
changes its edit-history log (the pre-save hook appends an entry for the
placeholder content). -/
theorem soft_delete_cx :
    (deleteCommentRoute sampleComment 7 false 50).2.editHistory ≠
      sampleComment.editHistory := by
  decide

/-- Claim C4 (amended): a permitted soft delete sets the deleted flag and
timestamp and replaces the content with the fixed placeholder string; and,
because the content overwrite fires the edit-history pre-save hook, it also
appends exactly one entry recording the placeholder string to the
edit-history log and sets the edited flag (when the prior content differs
from the placeholder). -/
theorem soft_delete (c : Comment) (requester : UserId) (isAdmin : Bool) (now : Nat)
    (hperm : c.author = requester ∨ isAdmin = true) (hc : c.content ≠ tombstone) :
    (deleteCommentRoute c requester isAdmin now).1 = 200 ∧
    (deleteCommentRoute c requester isAdmin now).2.isDeleted = true ∧
    (deleteCommentRoute c requester isAdmin now).2.deletedAt = some now ∧
    (deleteCommentRoute c requester isAdmin now).2.content = tombstone ∧
    (deleteCommentRoute c requester isAdmin now).2.editHistory =
      c.editHistory ++ [{ content := tombstone, editedAt := now }] ∧
    (deleteCommentRoute c requester isAdmin now).2.isEdited = true := by
  have hcond : ¬ (c.author ≠ requester ∧ isAdmin = false) := by
    rcases hperm with h | h
    · exact fun hh => hh.1 h
    · intro hh
      rw [h] at hh
      exact Bool.noConfusion hh.2
  have hts : tombstone ≠ c.content := fun e => hc e.symm
  simp only [deleteCommentRoute, if_neg hcond]
  simp [commentPreSave, hts]

/-- Witness for the amended C4 theorem: the author deletes the sample
comment. -/
theorem soft_delete_witness :
    (deleteCommentRoute sampleComment 7 false 50).1 = 200 ∧
    (deleteCommentRoute sampleComment 7 false 50).2.isDeleted = true ∧
    (deleteCommentRoute sampleComment 7 false 50).2.deletedAt = some 50 ∧
    (deleteCommentRoute sampleComment 7 false 50).2.content = tombstone ∧
    (deleteCommentRoute sampleComment 7 false 50).2.editHistory =
      sampleComment.editHistory ++ [{ content := tombstone, editedAt := 50 }] ∧
    (deleteCommentRoute sampleComment 7 false 50).2.isEdited = true :=
  soft_delete sampleComment 7 false 50 (Or.inl rfl) (by decide)

/-- Claim C8: a content edit on a comment older than 24 hours, even by the
author and with content passing validation, is rejected with HTTP 403 (not
400) and the stored comment is returned unchanged. -/
theorem edit_window (c : Comment) (u : UserId) (s : String) (now : Nat)
    (ha : c.author = u) (hlen1 : 1 ≤ s.length) (hlen2 : s.length ≤ 500)
    (hold : 86400000 < now - c.createdAt) :
    updateCommentRoute c u s now = (403, c) := by
  have h1 : ¬ (s.length < 1 ∨ 500 < s.length) := by omega
  have h2 : ¬ (c.author ≠ u) := fun hh => hh ha
  simp only [updateCommentRoute, if_neg h1, if_neg h2, if_pos hold]

/-- Witness for the C8 theorem: the author tries to edit the sample comment
just after the 24-hour window. -/
theorem edit_window_witness :
    updateCommentRoute sampleComment 7 "B" 86400001 = (403, sampleComment) :=
  edit_window sampleComment 7 "B" 86400001 rfl (by decide) (by decide) (by decide)

/-! ### Like toggle lemmas -/

theorem toggleLike_on (c : Comment) (u : UserId) (now : Nat)
    (h : hasUserLiked c u = false) :
    toggleLikeRoute c u now =
      (200, { c with likes := c.likes ++ [{ user := u, likedAt := now }] }) := by
  simp only [toggleLikeRoute, h, Bool.false_eq_true, if_false]
  simp [commentPreSave]

theorem toggleLike_off (c : Comment) (u : UserId) (now : Nat)
    (h : hasUserLiked c u = true) :
    toggleLikeRoute c u now =
      (200, { c with likes := c.likes.filter (fun l => !(l.user == u)) }) := by
  simp only [toggleLikeRoute, h, if_true]
  simp [commentPreSave]

theorem hasUserLiked_toggle (c : Comment) (u : UserId) (now : Nat) :
    hasUserLiked (toggleLikeRoute c u now).2 u = !(hasUserLiked c u) := by
  cases h : hasUserLiked c u
  · rw [toggleLike_on c u now h]
    have h0 : c.likes.any (fun l => l.user == u) = false := h
    simp [hasUserLiked, List.any_append, h0]
  · rw [toggleLike_off c u now h]
    simp only [hasUserLiked]
    simp [any_filter_not_self]

theorem runLikes_parity (u : UserId) (ts : List Nat) :
    ∀ c : Comment, hasUserLiked (runLikes c u ts) u =
      Bool.xor (ts.length % 2 == 1) (hasUserLiked c u) := by
  induction ts with
  | nil =>
    intro c
    simp [runLikes]
  | cons t ts ih =>
    intro c
    rw [runLikes, ih, hasUserLiked_toggle]
    rcases Nat.mod_two_eq_zero_or_one ts.length with h | h <;>
      simp [List.length_cons, Nat.add_mod, h]

/-- Claim C9: like toggle parity.  Two successive like-route calls by the
same user restore the like count and the membership of every user in the like
set (given the user holds at most one like entry, as the route maintains);
and any odd-length sequence of like-route calls flips the membership of the user
relative to the initial state. -/
theorem like_toggle_parity (c : Comment) (u : UserId) (t1 t2 : Nat) (ts : List Nat)
    (h : countLikes c u ≤ 1) (hodd : ts.length % 2 = 1) :
    ((toggleLikeRoute (toggleLikeRoute c u t1).2 u t2).2).likes.length = c.likes.length ∧
    (∀ w : UserId,
      hasUserLiked ((toggleLikeRoute (toggleLikeRoute c u t1).2 u t2).2) w =
        hasUserLiked c w) ∧
    hasUserLiked (runLikes c u ts) u = !(hasUserLiked c u) := by
  refine ⟨?_, ?_, ?_⟩
  case refine_3 =>
    rw [runLikes_parity u ts c, hodd]
    simp
  all_goals cases hl : hasUserLiked c u
  case refine_1.false | refine_2.false =>
    have h0 : c.likes.any (fun l => l.user == u) = false := hl
    have he : c.likes.filter (fun l => !(l.user == u)) = c.likes :=
      filter_not_eq_self_of_any_false _ _ h0
    rw [toggleLike_on c u t1 hl]
    rw [toggleLike_off _ u t2 (by simp [hasUserLiked, List.any_append])]
    simp only [List.filter_append, he]
    simp
  case refine_1.true =>
    have h1 : 1 ≤ countLikes c u := by
      simp only [countLikes]
      have h0 : c.likes.any (fun l => l.user == u) = true := hl
      rcases List.any_eq_true.mp h0 with ⟨x, hx, hxu⟩
      have : x ∈ c.likes.filter (fun l => l.user == u) := List.mem_filter.mpr ⟨hx, hxu⟩
      exact List.length_pos.mpr (fun e => by simp [e] at this)
    have hcount : countLikes c u = 1 := le_antisymm h h1
    rw [toggleLike_off c u t1 hl]
    rw [toggleLike_on _ u t2 (by simp [hasUserLiked, any_filter_not_self])]
    simp only [List.length_append, List.length_cons, List.length_nil]
    have := length_filter_not_add c.likes (fun l => l.user == u)
    simp only [countLikes] at hcount
    omega
  case refine_2.true =>
    intro w
    rw [toggleLike_off c u t1 hl]
    rw [toggleLike_on _ u t2 (by simp [hasUserLiked, any_filter_not_self])]
    by_cases hw : w = u
    · subst hw
      have h0 : c.likes.any (fun l => l.user == w) = true := hl
      simp only [hasUserLiked, List.any_append, List.any_cons, List.any_nil,
        beq_self_eq_true, Bool.or_true, Bool.or_false, h0]
    · have hk : ((c.likes.filter (fun l => !(l.user == u))).any (fun l => l.user == w)) =
          c.likes.any (fun l => l.user == w) := by
        apply any_filter_not_other
        intro x hx
        have hxw : x.user = w := by simpa using hx
        simp [hxw, hw]
      have huw : (u == w) = false := by
        simp only [beq_eq_false_iff_ne]
        exact fun e => hw e.symm
      simp only [hasUserLiked, List.any_append, List.any_cons, List.any_nil, huw,
        Bool.or_false, Bool.false_or, hk]

/-- Witness for the C9 theorem: user 3 holds exactly one like entry on the
sample comment, and a single call is an odd-length sequence. -/
theorem like_toggle_parity_witness :
    ((toggleLikeRoute (toggleLikeRoute sampleComment 3 10).2 3 11).2).likes.length =
      sampleComment.likes.length ∧
    (∀ w : UserId,
      hasUserLiked ((toggleLikeRoute (toggleLikeRoute sampleComment 3 10).2 3 11).2) w =
        hasUserLiked sampleComment w) ∧
    hasUserLiked (runLikes sampleComment 3 [5]) 3 = !(hasUserLiked sampleComment 3) :=
  like_toggle_parity sampleComment 3 10 11 [5] (by decide) (by decide)

/-! ### Community membership claims -/

/-- Sample community: created by user 1 (member with role admin), with an
ordinary member 4. -/
def sampleCommunity : Community :=
  { createdBy := 1, moderators := [1],
    members := [{ user := 1, joinedAt := 0, role := Role.admin },
                { user := 4, joinedAt := 5, role := Role.member }] }

/-- Claim C6: creator immutability.  When the creator (a member) attempts to
leave, the leave route fails with HTTP 400, the community is unchanged, and
the creator is still a member. -/
theorem creator_immutability (c : Community) (h : isMember c c.createdBy = true) :
    (leaveRoute c c.createdBy).1 = 400 ∧
    (leaveRoute c c.createdBy).2 = c ∧
    isMember (leaveRoute c c.createdBy).2 c.createdBy = true := by
  have h1 : ¬ (isMember c c.createdBy = false) := by simp [h]
  simp only [leaveRoute, if_neg h1, if_pos rfl]
  exact ⟨rfl, rfl, h⟩

/-- Witness for the C6 theorem: creator 1 of the sample community cannot
leave it. -/
theorem creator_immutability_witness :
    (leaveRoute sampleCommunity sampleCommunity.createdBy).1 = 400 ∧
    (leaveRoute sampleCommunity sampleCommunity.createdBy).2 = sampleCommunity ∧
    isMember (leaveRoute sampleCommunity sampleCommunity.createdBy).2
      sampleCommunity.createdBy = true :=
  creator_immutability sampleCommunity (by decide)

theorem addMember_of_isMember (c : Community) (u : UserId) (t : Nat)
    (h : isMember c u = true) : addMember c u t = c := by
  simp only [addMember, h, if_true]

theorem isMember_count_pos (c : Community) (u : UserId) (h : isMember c u = true) :
    1 ≤ countMember c u := by
  rcases List.any_eq_true.mp h with ⟨x, hx, hxu⟩
  have hmem : x ∈ c.members.filter (fun m => m.user == u) :=
    List.mem_filter.mpr ⟨hx, hxu⟩
  have hne : c.members.filter (fun m => m.user == u) ≠ [] := by
    intro e
    rw [e] at hmem
    exact List.not_mem_nil x hmem
  exact List.length_pos.mpr hne

theorem isMember_count_zero (c : Community) (u : UserId) (h : isMember c u = false) :
    countMember c u = 0 := by
  have h0 : c.members.any (fun m => m.user == u) = false := h
  simp only [countMember, List.length_eq_zero]
  exact List.filter_eq_nil_iff.mpr (List.any_eq_false.mp h0)

/-- Claim C7: membership uniqueness / addMember idempotence.  Starting from
a community whose member list holds at most one record for user u, adding u
twice yields exactly one record for u; and the operation preserves the
no-duplicate bound for every user. -/
theorem addMember_unique (c : Community) (u : UserId) (t1 t2 : Nat)
    (h : countMember c u ≤ 1) :
    countMember (addMember (addMember c u t1) u t2) u = 1 ∧
    (∀ w : UserId, countMember c w ≤ 1 →
      countMember (addMember (addMember c u t1) u t2) w ≤ 1) := by
  cases hm : isMember c u
  · have hz : countMember c u = 0 := isMember_count_zero c u hm
    have e1 : addMember c u t1 =
        { c with members :=
            c.members ++ [{ user := u, joinedAt := t1, role := Role.member }] } := by
      simp only [addMember, hm, Bool.false_eq_true, if_false]
    have hm1 : isMember (addMember c u t1) u = true := by
      rw [e1]
      simp [isMember, List.any_append]
    have e2 : addMember (addMember c u t1) u t2 = addMember c u t1 :=
      addMember_of_isMember _ u t2 hm1
    rw [e2, e1]
    constructor
    · simp only [countMember, List.filter_append, List.length_append]
      have hz0 : (c.members.filter (fun m => m.user == u)).length = 0 := hz
      simp [hz0]
    · intro w hw
      by_cases hwu : w = u
      · subst hwu
        simp only [countMember, List.filter_append, List.length_append]
        have hz0 : (c.members.filter (fun m => m.user == w)).length = 0 := hz
        simp [hz0]
      · have huw : (u == w) = false := by
          simp only [beq_eq_false_iff_ne]
          exact fun e => hwu e.symm
        simp only [countMember, List.filter_append, List.length_append]
        simp only [countMember] at hw
        simp [List.filter_cons, huw]
        omega
  · have e1 : addMember c u t1 = c := addMember_of_isMember c u t1 hm
    have e2 : addMember c u t2 = c := addMember_of_isMember c u t2 hm
    rw [e1, e2]
    have hp : 1 ≤ countMember c u := isMember_count_pos c u hm
    exact ⟨le_antisymm h hp, fun w hw => hw⟩

/-- Witness for the C7 theorem: adding user 8 twice to the sample community
yields exactly one record for user 8. -/
theorem addMember_unique_witness :
    countMember (addMember (addMember sampleCommunity 8 20) 8 21) 8 = 1 ∧
    (∀ w : UserId, countMember sampleCommunity w ≤ 1 →
      countMember (addMember (addMember sampleCommunity 8 20) 8 21) w ≤ 1) :=
  addMember_unique sampleCommunity 8 20 21 (by decide)

end Civic
